import Mathlib

set_option maxRecDepth 100000

/-!
# Verification of the jnr-demo movement and render-setup code

Shallow embedding of the jump-and-run demo (Go, GLFW/OpenGL).  The mutable
package globals that make up the player state become a `PState` record; the
per-frame update `updateMovement`, the space/F key handler branch and
`resetPlayer` become pure state transformers.

The source stores coordinates and speeds as `float32`, but all of its
arithmetic is exact in the subgroup `(1/5)·ℤ`: every constant is an integer
and the only fractional step is the per-tick jump deceleration `0.2 = 1/5`
(there are no multiplications of state values).  We therefore model each
coordinate exactly as an integer number of fifths of a pixel: the pixel
value `n` is represented as `px n = 5 * n`, and the `0.2` decrement as `1`.
Addition, subtraction, order and equality are homomorphic under this
scaling, so each theorem below transfers verbatim to the source's values.

The shader/program construction of the render setup is modelled against an
abstract GL oracle providing status flags and info logs.
-/

/-- A pixel coordinate, in the fifth-of-a-pixel units of the model. -/
def px (n : ℤ) : ℤ := 5 * n

/-! ## Constants (from the `const` block of the source) -/

def canvasWidth : ℤ := px 840
def canvasHeight : ℤ := px 360
def playerWidth : ℤ := px 16
def playerHeight : ℤ := px 16
def gapWidth : ℤ := px 150
def platformWidth : ℤ := canvasWidth - gapWidth
def platformHeight : ℤ := px 150
def wallWidth : ℤ := px 50
def jumpHeightA : ℤ := px 100
def jumpHeightB : ℤ := px 70
def speedX : ℤ := px 4
def speedY : ℤ := px 3
def breakY : ℤ := px 2
def jumpAcceleration : ℤ := px 8

/-- The per-tick decay of the jump speed, `0.2` in the source:
one fifth of a pixel. -/
def jumpDecay : ℤ := 1

/-! ## Player state

One record for the mutable globals of the program that the movement code
reads or writes. -/

structure PState where
  moveLeft : Bool
  moveRight : Bool
  moveUp : Bool
  moveDown : Bool
  jump : Bool
  jumpingA : Bool
  jumpingB : Bool
  wallLock : Bool
  playerX : ℤ
  playerY : ℤ
  jumpY : ℤ
  jumpSpeed : ℤ
deriving DecidableEq, Repr

/-! ## The movement update

`updateMovement` in the source first runs the vertical (jump / fall) block
and then the horizontal block; we split it accordingly and compose. -/

/-- Vertical part of `updateMovement`: the `jumpingA` / `jumpingB` /
falling branches.  In the primary rising branch the secondary-arc switch
tests the already updated `playerY`, exactly as the sequential Go code
does. -/
def updateVertical (s : PState) : PState :=
  if s.jumpingA = true then
    if s.playerY - s.jumpY < jumpHeightA then
      if s.playerY + s.jumpSpeed - s.jumpY < jumpHeightB ∧ s.jump = false then
        { s with playerY := s.playerY + s.jumpSpeed,
                 jumpSpeed := s.jumpSpeed - jumpDecay,
                 jumpingA := false, jumpingB := true }
      else
        { s with playerY := s.playerY + s.jumpSpeed,
                 jumpSpeed := s.jumpSpeed - jumpDecay }
    else
      { s with jumpingA := false, playerY := s.playerY - speedY }
  else if s.jumpingB = true then
    if s.playerY - s.jumpY < jumpHeightB then
      { s with playerY := s.playerY + s.jumpSpeed,
               jumpSpeed := s.jumpSpeed - jumpDecay }
    else
      { s with jumpingB := false, playerY := s.playerY - speedY }
  else if s.playerY > platformHeight ∨ s.playerX ≥ platformWidth then
    if s.playerX < platformWidth ∧ s.playerY - speedY < platformHeight then
      { s with playerY := platformHeight, jumpY := platformHeight }
    else
      { s with playerY := s.playerY - speedY }
  else if s.playerX > platformWidth then
    { s with playerY := s.playerY - speedY }
  else s

/-- The left-boundary clamp at the end of the `moveLeft` branch. -/
def clampLeft (t : PState) : PState :=
  if t.playerX < platformWidth ∧ t.playerY < platformHeight then
    { t with playerX := platformWidth, playerY := t.playerY + breakY }
  else t

/-- The right-boundary clamp at the end of the `moveRight` branch. -/
def clampRight (t : PState) : PState :=
  if t.playerX > canvasWidth - wallWidth - playerWidth then
    { t with playerX := canvasWidth - wallWidth - playerWidth,
             playerY := t.playerY + breakY }
  else t

/-- Horizontal part of `updateMovement`: wall-lock aware move plus the
boundary clamps. -/
def updateHorizontal (s : PState) : PState :=
  if s.moveLeft = true then
    clampLeft
      (if s.wallLock = true then
        if s.jump = true ∨ s.playerX ≠ canvasWidth - wallWidth - playerWidth ∨
            s.moveDown = true then
          { s with playerX := s.playerX - speedX }
        else
          { s with playerY := s.playerY + breakY }
      else
        { s with playerX := s.playerX - speedX })
  else if s.moveRight = true then
    clampRight
      (if s.wallLock = true then
        if s.jump = true ∨ s.playerX ≠ platformWidth ∨ s.moveDown = true then
          { s with playerX := s.playerX + speedX }
        else
          { s with playerY := s.playerY + breakY }
      else
        { s with playerX := s.playerX + speedX })
  else s

/-- One frame of the movement update. -/
def updateMovement (s : PState) : PState :=
  updateHorizontal (updateVertical s)

/-! ## Key events -/

/-- The space (and F) key press branch of `onKey`: always records the jump
key as held, and triggers the primary jump phase under the source's
condition. -/
def pressJump (s : PState) : PState :=
  if s.playerY ≤ s.jumpY ∧ s.playerX < platformWidth ∨
      (s.playerX = platformWidth ∨
        s.playerX = canvasWidth - wallWidth - playerWidth) then
    { s with jump := true, jumpingA := true, jumpY := s.playerY,
             jumpSpeed := jumpAcceleration }
  else
    { s with jump := true }

/-- `resetPlayer` from the source (also triggered by the R key).  The
constant divisions are exact, as in the source's integer constant
arithmetic. -/
def resetPlayer (s : PState) : PState :=
  { s with playerX := (canvasWidth - px 150) / 2 + playerWidth / 2,
           playerY := canvasHeight - canvasHeight / 3,
           jumpY := platformHeight }

/-- The values of the input toggles that key press/release events may set. -/
structure InputFlags where
  moveLeft : Bool
  moveRight : Bool
  moveUp : Bool
  moveDown : Bool
  jump : Bool
  wallLock : Bool

/-- Effect of an arbitrary batch of movement key press/release events (and
of the S wall-lock toggle) between two frames. -/
def setFlags (f : InputFlags) (s : PState) : PState :=
  { s with moveLeft := f.moveLeft, moveRight := f.moveRight,
           moveUp := f.moveUp, moveDown := f.moveDown,
           jump := f.jump, wallLock := f.wallLock }

/-- The zero state of the package globals before `resetPlayer` runs. -/
def initState : PState :=
  ⟨false, false, false, false, false, false, false, false, 0, 0, 0, 0⟩

/-- The state right after the startup call to `resetPlayer`. -/
def resetState : PState := resetPlayer initState

/-- Iterated frames of the movement update. -/
def iterUpd : ℕ → PState → PState
  | 0, s => s
  | n + 1, s => iterUpd n (updateMovement s)

/-- States the program can be in at a frame boundary: start from the reset
state, advance frames, and let the key callbacks fire between frames. -/
inductive Reach : PState → Prop where
  | init : Reach resetState
  | step : ∀ {s : PState}, Reach s → Reach (updateMovement s)
  | keys : ∀ {s : PState} (f : InputFlags), Reach s → Reach (setFlags f s)
  | jumpKey : ∀ {s : PState}, Reach s → Reach (pressJump s)
  | resetKey : ∀ {s : PState}, Reach s → Reach (resetPlayer s)



/-! ## Canonical jump scenario

After a reset the player falls for 30 frames, landing clamped on the
platform; a jump key press there starts the primary arc. -/

/-- The grounded state reached 30 frames after a reset. -/
def grounded : PState := iterUpd 30 resetState

/-- The state right after a jump key press in the grounded state. -/
def jumpStart : PState := pressJump grounded

/-- Frames of a jump from `jumpStart`, where the jump key is held or
released per tick according to `sched`. -/
def runSched (sched : ℕ → Bool) : ℕ → PState
  | 0 => jumpStart
  | n + 1 => updateMovement { runSched sched n with jump := sched n }

/-- Height gained over the jump-reference height after `n` ticks. -/
def heightAt (sched : ℕ → Bool) (n : ℕ) : ℤ :=
  (runSched sched n).playerY - (runSched sched n).jumpY

/-- Greatest height gained during the first `N` ticks. -/
def maxHeight (sched : ℕ → Bool) (N : ℕ) : ℤ :=
  (List.range N).foldl (fun acc n => max acc (heightAt sched n)) 0

/-- The jump key held throughout. -/
def heldSched : ℕ → Bool := fun _ => true

/-- The jump key held for the first `k` ticks and released afterwards. -/
def relSched (k : ℕ) : ℕ → Bool := fun n => decide (n < k)

/-! ## Jump-height invariant -/

/-- Bounds maintained by every frame on a jump in progress: during the
primary phase the secondary flag is clear, the speed never exceeds the
initial jump acceleration, and the height gained stays below the phase
threshold plus one tick of rise plus one boundary break; likewise for the
secondary phase with its smaller threshold. -/
def JumpInv (s : PState) : Prop :=
  (s.jumpingA = true →
    s.jumpingB = false ∧ s.jumpSpeed ≤ jumpAcceleration ∧
      s.playerY - s.jumpY < jumpHeightA + jumpAcceleration + breakY) ∧
  (s.jumpingA = false → s.jumpingB = true →
    s.jumpSpeed ≤ jumpAcceleration ∧
      s.playerY - s.jumpY < jumpHeightB + jumpAcceleration + breakY)

/-- The same bounds with slack for the pending horizontal break, holding
between the vertical and the horizontal half of a frame. -/
def JumpInvMid (s : PState) : Prop :=
  (s.jumpingA = true →
    s.jumpingB = false ∧ s.jumpSpeed ≤ jumpAcceleration ∧
      s.playerY - s.jumpY < jumpHeightA + jumpAcceleration) ∧
  (s.jumpingA = false → s.jumpingB = true →
    s.jumpSpeed ≤ jumpAcceleration ∧
      s.playerY - s.jumpY < jumpHeightB + jumpAcceleration)

/-! ## Render setup: shader and program construction

The GL backend is modelled as an oracle: for each status check it reports a
boolean status, an info-log length and the info-log text read when that
length is positive.  Handle creation is modelled by the caller passing the
fresh identifier, and every `gl.DeleteShader` / `gl.DeleteProgram` call is
recorded in a deletion list. -/

/-- The oracle's answers for one status query (compile, link or validate):
the status flag, the reported `INFO_LOG_LENGTH`, and the log text obtained
by the read performed when that length is positive. -/
structure GLStage where
  status : Bool
  infoLogLen : ℕ
  infoLog : String

/-- `checkShader`: on a false status, build the error message from the
prefix and the info log, which is read only when the reported length is
positive. -/
def checkShader (st : GLStage) : Option String :=
  if st.status = false then
    some ("shader " ++ (if 0 < st.infoLogLen then st.infoLog else ""))
  else none

/-- `checkProgram`: same as `checkShader` with the program prefix. -/
def checkProgram (st : GLStage) : Option String :=
  if st.status = false then
    some ("program " ++ (if 0 < st.infoLogLen then st.infoLog else ""))
  else none

/-- Result of creating one shader or program: its identifier, the error if
any, and the identifiers deleted before returning. -/
structure GLResult where
  id : ℕ
  err : Option String
  deleted : List ℕ

/-- `newShader`: compile, check the compile status, and delete the shader
handle if the check failed. -/
def newShader (id : ℕ) (compileSt : GLStage) : GLResult :=
  let e := checkShader compileSt
  { id := id, err := e, deleted := if e.isSome then [id] else [] }

/-- `newProgram`: link, check the link status, then validate and check the
validate status; delete the program handle if either check failed. -/
def newProgram (id : ℕ) (linkSt validateSt : GLStage) : GLResult :=
  let e :=
    match checkProgram linkSt with
    | some m => some m
    | none => checkProgram validateSt
  { id := id, err := e, deleted := if e.isSome then [id] else [] }

/-- Result of the whole shader-program setup: the error if any, and every
identifier deleted before returning. -/
structure InitResult where
  err : Option String
  deleted : List ℕ

/-- `initShaderProgram`: build the vertex shader, the fragment shader and
the program in order; on a fragment-shader failure also delete the vertex
shader, and on a program failure delete both shaders. -/
def initShaderProgram (vId fId pId : ℕ)
    (vSt fSt linkSt validateSt : GLStage) : InitResult :=
  let v := newShader vId vSt
  match v.err with
  | some m => { err := some m, deleted := v.deleted }
  | none =>
    let f := newShader fId fSt
    match f.err with
    | some m => { err := some m, deleted := f.deleted ++ [vId] }
    | none =>
      let p := newProgram pId linkSt validateSt
      match p.err with
      | some m => { err := some m, deleted := p.deleted ++ [vId, fId] }
      | none => { err := none, deleted := [] }

/-- The claim's reading of a creation error: beyond the fixed prefix, the
message carries some non-empty diagnostic text.  Messages are built as
`prefixStr ++ log`, so this holds exactly when the message is longer than
the prefix. -/
def errHasInfoText (prefixStr : String) (e : Option String) : Prop :=
  ∃ msg, e = some msg ∧ prefixStr.length < msg.length

/-! ## Concrete states used in the theorems -/

/-- Boundary-clamp counterexample state: walking right one pixel-grid step
left of the wall limit while above platform height. -/
def cex5 : PState :=
  ⟨false, true, false, false, false, false, false, false,
    px 773, px 240, px 150, 0⟩

/-- Boundary-clamp witness state: walking left just right of the platform
edge while below platform height. -/
def s5w : PState :=
  ⟨true, false, false, false, false, false, false, false,
    px 692, px 100, 0, 0⟩

/-- A failing stage reporting a zero-length info log. -/
def badCompile : GLStage := ⟨false, 0, "unused"⟩

/-- A failing stage reporting diagnostic text. -/
def stFail : GLStage := ⟨false, 2, "ab"⟩

/-- A succeeding stage. -/
def stOk : GLStage := ⟨true, 0, ""⟩

/-! ## Helper lemmas -/

lemma updateVertical_playerX (s : PState) :
    (updateVertical s).playerX = s.playerX := by
  unfold updateVertical; split_ifs <;> rfl

lemma updateVertical_moveFlags (s : PState) :
    (updateVertical s).moveLeft = s.moveLeft ∧
    (updateVertical s).moveRight = s.moveRight ∧
    (updateVertical s).moveDown = s.moveDown ∧
    (updateVertical s).jump = s.jump ∧
    (updateVertical s).wallLock = s.wallLock := by
  unfold updateVertical; split_ifs <;> exact ⟨rfl, rfl, rfl, rfl, rfl⟩

lemma updateHorizontal_jumpFields (s : PState) :
    (updateHorizontal s).jumpingA = s.jumpingA ∧
    (updateHorizontal s).jumpingB = s.jumpingB ∧
    (updateHorizontal s).jumpY = s.jumpY ∧
    (updateHorizontal s).jumpSpeed = s.jumpSpeed ∧
    ((updateHorizontal s).playerY = s.playerY ∨
      (updateHorizontal s).playerY = s.playerY + breakY) := by
  unfold updateHorizontal clampLeft clampRight
  split_ifs with h1 h2 h3 h4 h5 h6 h7 h8 h9 h10 h11 <;>
    first
      | exact ⟨rfl, rfl, rfl, rfl, Or.inl rfl⟩
      | exact ⟨rfl, rfl, rfl, rfl, Or.inr rfl⟩
      | (exfalso
         simp only [not_or, ne_eq, not_not] at *
         simp only [canvasWidth, wallWidth, playerWidth, platformWidth,
           gapWidth, px] at *
         omega)

lemma jumpInvMid_vertical (s : PState) (h : JumpInv s) :
    JumpInvMid (updateVertical s) := by
  obtain ⟨hA, hB⟩ := h
  unfold updateVertical
  by_cases h1 : s.jumpingA = true
  · obtain ⟨hab, hs, hh⟩ := hA h1
    rw [if_pos h1]
    by_cases h2 : s.playerY - s.jumpY < jumpHeightA
    · rw [if_pos h2]
      by_cases h3 : s.playerY + s.jumpSpeed - s.jumpY < jumpHeightB ∧
          s.jump = false
      · rw [if_pos h3]
        refine ⟨fun hpA => Bool.noConfusion hpA, fun _ _ => ⟨?_, ?_⟩⟩ <;>
          · dsimp only
            simp only [jumpDecay, jumpAcceleration, jumpHeightB, px] at *
            omega
      · rw [if_neg h3]
        refine ⟨fun _ => ⟨hab, ?_, ?_⟩, fun hpA _ => ?_⟩
        · dsimp only
          simp only [jumpDecay, jumpAcceleration, jumpHeightA, px] at *
          omega
        · dsimp only
          simp only [jumpDecay, jumpAcceleration, jumpHeightA, px] at *
          omega
        · have hpA' : s.jumpingA = false := hpA
          rw [hpA'] at h1
          exact Bool.noConfusion h1
    · rw [if_neg h2]
      constructor
      · intro hpA; exact Bool.noConfusion hpA
      · intro _ hpB
        have hpB' : s.jumpingB = true := hpB
        exact Bool.noConfusion (hab ▸ hpB')
  · rw [if_neg h1]
    have h1f : s.jumpingA = false := by simpa using h1
    by_cases h4 : s.jumpingB = true
    · obtain ⟨hs, hh⟩ := hB h1f h4
      rw [if_pos h4]
      by_cases h5 : s.playerY - s.jumpY < jumpHeightB
      · rw [if_pos h5]
        refine ⟨fun hpA => absurd hpA h1, fun _ _ => ⟨?_, ?_⟩⟩ <;>
          · dsimp only
            simp only [jumpDecay, jumpAcceleration, jumpHeightB, px] at *
            omega
      · rw [if_neg h5]
        exact ⟨fun hpA => absurd hpA h1, fun _ hpB => Bool.noConfusion hpB⟩
    · rw [if_neg h4]
      by_cases h6 : s.playerY > platformHeight ∨ s.playerX ≥ platformWidth
      · rw [if_pos h6]
        by_cases h7 : s.playerX < platformWidth ∧
            s.playerY - speedY < platformHeight
        · rw [if_pos h7]
          exact ⟨fun hpA => absurd hpA h1, fun _ hpB => absurd hpB h4⟩
        · rw [if_neg h7]
          exact ⟨fun hpA => absurd hpA h1, fun _ hpB => absurd hpB h4⟩
      · rw [if_neg h6]
        by_cases h8 : s.playerX > platformWidth
        · rw [if_pos h8]
          exact ⟨fun hpA => absurd hpA h1, fun _ hpB => absurd hpB h4⟩
        · rw [if_neg h8]
          exact ⟨fun hpA => absurd hpA h1, fun _ hpB => absurd hpB h4⟩

lemma jumpInv_horizontal (s : PState) (h : JumpInvMid s) :
    JumpInv (updateHorizontal s) := by
  obtain ⟨hA, hB⟩ := h
  obtain ⟨eA, eB, eJ, eS, eY⟩ := updateHorizontal_jumpFields s
  constructor
  · intro hpA; rw [eA] at hpA
    obtain ⟨hab, hs, hh⟩ := hA hpA
    refine ⟨by rw [eB]; exact hab, by rw [eS]; exact hs, ?_⟩
    rw [eJ]
    rcases eY with e | e <;> rw [e] <;>
      simp only [jumpHeightA, jumpAcceleration, breakY, px] at * <;> omega
  · intro hpA hpB; rw [eA] at hpA; rw [eB] at hpB
    obtain ⟨hs, hh⟩ := hB hpA hpB
    refine ⟨by rw [eS]; exact hs, ?_⟩
    rw [eJ]
    rcases eY with e | e <;> rw [e] <;>
      simp only [jumpHeightB, jumpAcceleration, breakY, px] at * <;> omega

lemma updateMovement_playerX_le (s : PState)
    (h : s.playerX ≤ canvasWidth - wallWidth - playerWidth) :
    (updateMovement s).playerX ≤ canvasWidth - wallWidth - playerWidth := by
  have hx := updateVertical_playerX s
  show (updateHorizontal (updateVertical s)).playerX ≤ _
  unfold updateHorizontal clampLeft clampRight
  split_ifs <;>
    simp only [canvasWidth, wallWidth, playerWidth, platformWidth, gapWidth,
      speedX, px] at * <;> omega

lemma pressJump_playerX (s : PState) : (pressJump s).playerX = s.playerX := by
  unfold pressJump; split_ifs <;> rfl

/-! ## The claims -/

/-- Claim C7: for every prior state, `resetPlayer` sets `playerX` to
`(canvasWidth-150)/2 + playerWidth/2` (= 353 px), `playerY` to
`canvasHeight - canvasHeight/3` (= 240 px) and the jump-reference height
`jumpY` to `platformHeight`, unconditionally and exactly. -/
theorem c7_reset_values (s : PState) :
    (resetPlayer s).playerX = (canvasWidth - px 150) / 2 + playerWidth / 2 ∧
    (resetPlayer s).playerX = px 353 ∧
    (resetPlayer s).playerY = canvasHeight - canvasHeight / 3 ∧
    (resetPlayer s).playerY = px 240 ∧
    (resetPlayer s).jumpY = platformHeight := by
  exact ⟨rfl, show (canvasWidth - px 150) / 2 + playerWidth / 2 = px 353 by decide,
    rfl, show canvasHeight - canvasHeight / 3 = px 240 by decide, rfl⟩

/-- Claim C9: for every prior state, `resetPlayer` leaves the jump phase
flags, the jump speed, the wall-lock toggle and all input flags unchanged:
it modifies only `playerX`, `playerY` and `jumpY`. -/
theorem c9_reset_frame (s : PState) :
    (resetPlayer s).jumpingA = s.jumpingA ∧
    (resetPlayer s).jumpingB = s.jumpingB ∧
    (resetPlayer s).jumpSpeed = s.jumpSpeed ∧
    (resetPlayer s).wallLock = s.wallLock ∧
    (resetPlayer s).moveLeft = s.moveLeft ∧
    (resetPlayer s).moveRight = s.moveRight ∧
    (resetPlayer s).moveUp = s.moveUp ∧
    (resetPlayer s).moveDown = s.moveDown ∧
    (resetPlayer s).jump = s.jump := by
  exact ⟨rfl, rfl, rfl, rfl, rfl, rfl, rfl, rfl, rfl⟩

/-- Claim C10: with no jump phase active, no horizontal movement flags set,
and the player resting on the platform, `updateMovement` is the identity on
the whole player state. -/
theorem c10_idle_identity (s : PState) (hA : s.jumpingA = false)
    (hB : s.jumpingB = false) (hL : s.moveLeft = false)
    (hR : s.moveRight = false) (hy : s.playerY ≤ platformHeight)
    (hx : s.playerX < platformWidth) :
    updateMovement s = s := by
  have hv : updateVertical s = s := by
    unfold updateVertical
    rw [if_neg (by rw [hA]; exact Bool.noConfusion),
      if_neg (by rw [hB]; exact Bool.noConfusion),
      if_neg (show ¬(s.playerY > platformHeight ∨ s.playerX ≥ platformWidth) by
        rintro (h | h) <;> omega),
      if_neg (show ¬(s.playerX > platformWidth) by omega)]
  have hh : updateHorizontal s = s := by
    unfold updateHorizontal
    rw [if_neg (by rw [hL]; exact Bool.noConfusion),
      if_neg (by rw [hR]; exact Bool.noConfusion)]
  rw [updateMovement, hv, hh]

/-- Witness for C10: the grounded state after the post-reset fall is a
fixed point of the frame update. -/
theorem c10_witness : updateMovement grounded = grounded :=
  c10_idle_identity grounded (by decide) (by decide) (by decide) (by decide)
    (by decide) (by decide)

/-- Claim C2: from a state with the primary jump phase off, a jump key
press turns `jumpingA` on exactly when the player is at or below the
jump-reference height over the platform, or flush against the platform
edge or the wall edge; when it triggers, `jumpY` becomes the current
`playerY` and `jumpSpeed` becomes `jumpAcceleration`. -/
theorem c2_jump_trigger (s : PState) (hA : s.jumpingA = false) :
    ((pressJump s).jumpingA = true ↔
      (s.playerY ≤ s.jumpY ∧ s.playerX < platformWidth ∨
        (s.playerX = platformWidth ∨
          s.playerX = canvasWidth - wallWidth - playerWidth))) ∧
    ((s.playerY ≤ s.jumpY ∧ s.playerX < platformWidth ∨
        (s.playerX = platformWidth ∨
          s.playerX = canvasWidth - wallWidth - playerWidth)) →
      (pressJump s).jumpY = s.playerY ∧
      (pressJump s).jumpSpeed = jumpAcceleration) := by
  by_cases hc : s.playerY ≤ s.jumpY ∧ s.playerX < platformWidth ∨
      (s.playerX = platformWidth ∨
        s.playerX = canvasWidth - wallWidth - playerWidth)
  · unfold pressJump
    rw [if_pos hc]
    exact ⟨⟨fun _ => hc, fun _ => rfl⟩, fun _ => ⟨rfl, rfl⟩⟩
  · unfold pressJump
    rw [if_neg hc]
    refine ⟨⟨fun hpt => ?_, fun hcc => absurd hcc hc⟩,
      fun hcc => absurd hcc hc⟩
    have hpt' : s.jumpingA = true := hpt
    rw [hA] at hpt'
    exact Bool.noConfusion hpt'

/-- Witness for C2: in the grounded state the press condition holds and
the press starts the primary phase with the stated assignments. -/
theorem c2_witness :
    (pressJump grounded).jumpingA = true ∧
    (pressJump grounded).jumpY = grounded.playerY ∧
    (pressJump grounded).jumpSpeed = jumpAcceleration := by
  refine ⟨(c2_jump_trigger grounded (by decide)).1.mpr (by decide),
    ((c2_jump_trigger grounded (by decide)).2 (by decide)).1,
    ((c2_jump_trigger grounded (by decide)).2 (by decide)).2⟩

/-- Counterexample to claim C1 as stated: the reset state itself is
reachable, and its `playerX` (353 px) lies outside the claimed interval
`[platformWidth, canvasWidth - wallWidth - playerWidth]` = [690, 774] px. -/
theorem c1_counterexample :
    Reach resetState ∧
    ¬(platformWidth ≤ resetState.playerX ∧
      resetState.playerX ≤ canvasWidth - wallWidth - playerWidth) :=
  ⟨Reach.init, by decide⟩

/-- Claim C1 as amended: on every reachable frame the upper corridor bound
holds, `playerX ≤ canvasWidth - wallWidth - playerWidth`; the claimed lower
bound `platformWidth` does not hold (the player starts and may move on top
of the platform, left of its edge). -/
theorem c1_x_upper_bound (s : PState) (h : Reach s) :
    s.playerX ≤ canvasWidth - wallWidth - playerWidth := by
  induction h with
  | init => decide
  | step _ ih => exact updateMovement_playerX_le _ ih
  | keys f _ ih => exact ih
  | jumpKey _ ih => rw [pressJump_playerX]; exact ih
  | resetKey _ ih =>
      exact show (canvasWidth - px 150) / 2 + playerWidth / 2 ≤
        canvasWidth - wallWidth - playerWidth by decide

/-- Witness for the amended C1: the program start state satisfies the
upper corridor bound. -/
theorem c1_witness :
    resetState.playerX ≤ canvasWidth - wallWidth - playerWidth :=
  c1_x_upper_bound resetState Reach.init

/-- Counterexample to claim C4 as stated: sixteen frames into a held jump
from the grounded state, the primary phase is still active and the height
gained is 104 px, exceeding `jumpHeightA` = 100 px. -/
theorem c4_counterexample :
    (iterUpd 16 jumpStart).jumpingA = true ∧
    (iterUpd 16 jumpStart).playerY - (iterUpd 16 jumpStart).jumpY = px 104 ∧
    jumpHeightA <
      (iterUpd 16 jumpStart).playerY - (iterUpd 16 jumpStart).jumpY := by
  decide

/-- Claim C4 as amended: each frame preserves the jump-height invariant,
so during the primary phase the height gained stays below
`jumpHeightA + jumpAcceleration + breakY` (110 px) and during the
secondary phase below `jumpHeightB + jumpAcceleration + breakY` (80 px);
the thresholds themselves can be overshot by up to one tick of rise plus
one boundary break. -/
theorem c4_height_bound (s : PState) (h : JumpInv s) :
    JumpInv (updateMovement s) :=
  jumpInv_horizontal (updateVertical s) (jumpInvMid_vertical s h)

/-- Witness for the amended C4: the freshly started jump satisfies the
invariant and keeps it after one frame. -/
theorem c4_witness : JumpInv jumpStart ∧ JumpInv (updateMovement jumpStart) :=
  ⟨by unfold JumpInv; decide, c4_height_bound jumpStart (by unfold JumpInv; decide)⟩

/-- Counterexample to claim C5 as stated: in `cex5` the player walks right
into the wall limit while above platform height (post-fall `playerY` is
237 px > 150 px), yet the clamp still adds the vertical correction
`breakY`: the right-boundary correction is not restricted to frames below
platform height. -/
theorem c5_counterexample :
    (updateMovement cex5).playerX = canvasWidth - wallWidth - playerWidth ∧
    (updateMovement cex5).playerY = (updateVertical cex5).playerY + breakY ∧
    ¬((updateVertical cex5).playerY < platformHeight) := by
  decide

/-- Claim C5 as amended (stated here without the wall-lock variant): when
a horizontal move would carry the player past a corridor boundary,
`updateMovement` sets `playerX` exactly to that boundary and adds `breakY`
to `playerY` exactly once, and otherwise moves `playerX` by `speedX` with
no vertical correction; the below-platform-height condition governs only
the left (platform-edge) clamp, while the right (wall) clamp fires at any
height. -/
theorem c5_clamp_exact (s : PState) (hw : s.wallLock = false) :
    (s.moveLeft = true →
      ((updateVertical s).playerX - speedX < platformWidth ∧
          (updateVertical s).playerY < platformHeight →
        (updateMovement s).playerX = platformWidth ∧
        (updateMovement s).playerY = (updateVertical s).playerY + breakY) ∧
      (¬((updateVertical s).playerX - speedX < platformWidth ∧
          (updateVertical s).playerY < platformHeight) →
        (updateMovement s).playerX = (updateVertical s).playerX - speedX ∧
        (updateMovement s).playerY = (updateVertical s).playerY)) ∧
    (s.moveLeft = false → s.moveRight = true →
      (canvasWidth - wallWidth - playerWidth <
          (updateVertical s).playerX + speedX →
        (updateMovement s).playerX = canvasWidth - wallWidth - playerWidth ∧
        (updateMovement s).playerY = (updateVertical s).playerY + breakY) ∧
      (¬(canvasWidth - wallWidth - playerWidth <
          (updateVertical s).playerX + speedX) →
        (updateMovement s).playerX = (updateVertical s).playerX + speedX ∧
        (updateMovement s).playerY = (updateVertical s).playerY)) := by
  obtain ⟨eL, eR, eD, eJ, eW⟩ := updateVertical_moveFlags s
  have hvW : ¬((updateVertical s).wallLock = true) := by
    rw [eW, hw]; exact Bool.noConfusion
  constructor
  · intro hL
    have hvL : (updateVertical s).moveLeft = true := by rw [eL]; exact hL
    unfold updateMovement updateHorizontal clampLeft
    rw [if_pos hvL, if_neg hvW]
    constructor
    · intro hc
      rw [if_pos hc]
      exact ⟨rfl, rfl⟩
    · intro hc
      rw [if_neg hc]
      exact ⟨rfl, rfl⟩
  · intro hL hR
    have hvL : ¬((updateVertical s).moveLeft = true) := by
      rw [eL, hL]; exact Bool.noConfusion
    have hvR : (updateVertical s).moveRight = true := by rw [eR]; exact hR
    unfold updateMovement updateHorizontal clampRight
    rw [if_neg hvL, if_pos hvR, if_neg hvW]
    constructor
    · intro hc
      rw [if_pos hc]
      exact ⟨rfl, rfl⟩
    · intro hc
      rw [if_neg hc]
      exact ⟨rfl, rfl⟩

/-- Witness for the amended C5: in `s5w` the leftward move crosses the
platform edge below platform height, and the frame ends exactly on the
edge with a single `breakY` correction. -/
theorem c5_witness :
    (updateMovement s5w).playerX = platformWidth ∧
    (updateMovement s5w).playerY = (updateVertical s5w).playerY + breakY :=
  ((c5_clamp_exact s5w rfl).1 rfl).1 (by decide)

/-- Claim C3: if during the rise of a held jump from the grounded state
the jump key is released at a tick where the height gained is still below
`jumpHeightB`, the arc switches to the secondary phase on that tick and
the greatest height gained over the jump stays at or below the greatest
height gained when the key is held throughout. -/
theorem c3_release_shortens (k : ℕ) (hk : k ≤ 8)
    (hrise : heightAt heldSched (k + 1) < jumpHeightB) :
    (runSched (relSched k) (k + 1)).jumpingB = true ∧
    maxHeight (relSched k) 20 ≤ maxHeight heldSched 20 := by
  revert hrise
  revert k
  decide

/-- Witness for C3: releasing the jump key at tick 3 of the rise switches
to the secondary arc and gains no more height than holding it. -/
theorem c3_witness :
    (runSched (relSched 3) 4).jumpingB = true ∧
    maxHeight (relSched 3) 20 ≤ maxHeight heldSched 20 :=
  c3_release_shortens 3 (by decide) (by decide)

/-- Counterexample to claim C6 as stated: at the reset state `playerY`
(240 px) is above the jump-reference height `jumpY` (150 px), so a jump
key press does not begin an arc: `jumpingA` stays off and the next frame
lowers `playerY` by `speedY` instead of raising it. -/
theorem c6_counterexample :
    resetState.playerY = canvasHeight - canvasHeight / 3 ∧
    (pressJump resetState).jumpingA = false ∧
    (updateMovement (pressJump resetState)).playerY =
      resetState.playerY - speedY := by
  decide

/-- Claim C6 as amended: from the reset state the player first falls at
`speedY` per tick for 30 ticks and is clamped onto the platform; a jump
key press in that grounded state begins an arc in which `playerY` rises
each tick by a speed starting at `jumpAcceleration` and decaying by
`jumpDecay` (0.2 px) per tick while the height gained is below
`jumpHeightA`, reaching 104 px after 16 ticks; from then on `playerY`
falls by exactly `speedY` per tick until the frame that would cross the
platform clamps it to `platformHeight`, which also becomes the new
jump-reference height. -/
theorem c6_scenario :
    grounded.playerX = resetState.playerX ∧
    grounded.playerY = platformHeight ∧
    grounded.jumpY = platformHeight ∧
    (∀ k : ℕ, k < 30 → (iterUpd k resetState).playerY =
      canvasHeight - canvasHeight / 3 - speedY * k) ∧
    jumpStart.jumpingA = true ∧
    jumpStart.jumpSpeed = jumpAcceleration ∧
    jumpStart.jumpY = platformHeight ∧
    (∀ k : ℕ, k < 16 → (iterUpd (k + 1) jumpStart).playerY =
      (iterUpd k jumpStart).playerY + (jumpAcceleration - k * jumpDecay)) ∧
    (∀ k : ℕ, k < 16 → (iterUpd k jumpStart).playerY -
      (iterUpd k jumpStart).jumpY < jumpHeightA) ∧
    (iterUpd 16 jumpStart).playerY - (iterUpd 16 jumpStart).jumpY = px 104 ∧
    jumpHeightA ≤ (iterUpd 16 jumpStart).playerY -
      (iterUpd 16 jumpStart).jumpY ∧
    (∀ k : ℕ, k ≤ 49 → 16 ≤ k → (iterUpd (k + 1) jumpStart).playerY =
      (iterUpd k jumpStart).playerY - speedY) ∧
    (iterUpd 50 jumpStart).playerY = px 152 ∧
    (iterUpd 51 jumpStart).playerY = platformHeight ∧
    (iterUpd 51 jumpStart).jumpY = platformHeight := by
  decide

/-- Witness for the amended C6: the first rise tick adds the full initial
jump speed to `playerY`. -/
theorem c6_witness :
    (iterUpd 1 jumpStart).playerY =
      (iterUpd 0 jumpStart).playerY + (jumpAcceleration - 0 * jumpDecay) :=
  c6_scenario.2.2.2.2.2.2.2.1 0 (by decide)

/-- Counterexample to claim C8 as stated: when the oracle reports a failed
compile with a zero-length info log, the error message is just the bare
prefix and carries no diagnostic text, though the handle is deleted. -/
theorem c8_counterexample :
    badCompile.status = false ∧
    (newShader 7 badCompile).err = some "shader " ∧
    ¬ errHasInfoText "shader " (newShader 7 badCompile).err ∧
    (newShader 7 badCompile).deleted = [7] := by
  refine ⟨rfl, by decide, ?_, rfl⟩
  rintro ⟨m, hm, hlen⟩
  have hm' : "shader " ++ "" = m := Option.some.inj hm
  rw [← hm'] at hlen
  exact absurd hlen (by decide)

/-- Claim C8 as amended: whenever a compile, link or validate status check
reports failure, `initShaderProgram` returns an error, the failing
identifier has been deleted before returning, and the error message
carries the retrieved info-log text whenever the reported log length is
positive (with a zero-length log the message is only the fixed prefix). -/
theorem c8_error_cleanup (vId fId pId : ℕ) (vSt fSt lSt valSt : GLStage) :
    (vSt.status = false →
      vId ∈ (initShaderProgram vId fId pId vSt fSt lSt valSt).deleted ∧
      (initShaderProgram vId fId pId vSt fSt lSt valSt).err.isSome = true ∧
      (0 < vSt.infoLogLen →
        (initShaderProgram vId fId pId vSt fSt lSt valSt).err =
          some ("shader " ++ vSt.infoLog))) ∧
    (vSt.status = true → fSt.status = false →
      fId ∈ (initShaderProgram vId fId pId vSt fSt lSt valSt).deleted ∧
      vId ∈ (initShaderProgram vId fId pId vSt fSt lSt valSt).deleted ∧
      (initShaderProgram vId fId pId vSt fSt lSt valSt).err.isSome = true ∧
      (0 < fSt.infoLogLen →
        (initShaderProgram vId fId pId vSt fSt lSt valSt).err =
          some ("shader " ++ fSt.infoLog))) ∧
    (vSt.status = true → fSt.status = true → lSt.status = false →
      pId ∈ (initShaderProgram vId fId pId vSt fSt lSt valSt).deleted ∧
      (initShaderProgram vId fId pId vSt fSt lSt valSt).err.isSome = true ∧
      (0 < lSt.infoLogLen →
        (initShaderProgram vId fId pId vSt fSt lSt valSt).err =
          some ("program " ++ lSt.infoLog))) ∧
    (vSt.status = true → fSt.status = true → lSt.status = true →
      valSt.status = false →
      pId ∈ (initShaderProgram vId fId pId vSt fSt lSt valSt).deleted ∧
      (initShaderProgram vId fId pId vSt fSt lSt valSt).err.isSome = true ∧
      (0 < valSt.infoLogLen →
        (initShaderProgram vId fId pId vSt fSt lSt valSt).err =
          some ("program " ++ valSt.infoLog))) := by
  refine ⟨fun hv => ?_, fun hv hf => ?_, fun hv hf hl => ?_,
    fun hv hf hl hval => ?_⟩
  · have e : initShaderProgram vId fId pId vSt fSt lSt valSt =
        { err := some ("shader " ++
            (if 0 < vSt.infoLogLen then vSt.infoLog else "")),
          deleted := [vId] } := by
      simp [initShaderProgram, newShader, checkShader, hv]
    rw [e]
    refine ⟨by simp, rfl, fun hlen => ?_⟩
    simp [hlen]
  · have e : initShaderProgram vId fId pId vSt fSt lSt valSt =
        { err := some ("shader " ++
            (if 0 < fSt.infoLogLen then fSt.infoLog else "")),
          deleted := [fId, vId] } := by
      simp [initShaderProgram, newShader, checkShader, hv, hf]
    rw [e]
    refine ⟨by simp, by simp, rfl, fun hlen => ?_⟩
    simp [hlen]
  · have e : initShaderProgram vId fId pId vSt fSt lSt valSt =
        { err := some ("program " ++
            (if 0 < lSt.infoLogLen then lSt.infoLog else "")),
          deleted := [pId, vId, fId] } := by
      simp [initShaderProgram, newShader, newProgram, checkShader,
        checkProgram, hv, hf, hl]
    rw [e]
    refine ⟨by simp, rfl, fun hlen => ?_⟩
    simp [hlen]
  · have e : initShaderProgram vId fId pId vSt fSt lSt valSt =
        { err := some ("program " ++
            (if 0 < valSt.infoLogLen then valSt.infoLog else "")),
          deleted := [pId, vId, fId] } := by
      simp [initShaderProgram, newShader, newProgram, checkShader,
        checkProgram, hv, hf, hl, hval]
    rw [e]
    refine ⟨by simp, rfl, fun hlen => ?_⟩
    simp [hlen]

/-- Witness for the amended C8: a failing vertex compile with a two-byte
log yields the prefixed log message and the deletion of the vertex shader
handle. -/
theorem c8_witness :
    (initShaderProgram 1 2 3 stFail stOk stOk stOk).err =
      some ("shader " ++ "ab") ∧
    1 ∈ (initShaderProgram 1 2 3 stFail stOk stOk stOk).deleted := by
  have h := c8_error_cleanup 1 2 3 stFail stOk stOk stOk
  exact ⟨(h.1 rfl).2.2 (by decide), (h.1 rfl).1⟩
